import Mathlib

/-!
Shallow embedding of `sample_apps/rso_sample_apps/python/main.py`, a FastAPI
demo implementing an RSO (Riot Sign-On) authorization-code flow.

Modelling conventions:
* Python's global `CONFIG` dict is modelled as an association list with
  Python-dict `set`/`get` semantics (`Dict`); `mkCONFIG` replays the startup
  assignments line by line.
* JSON objects are modelled as lists of key/value pairs in iteration
  (insertion) order; values carry their Python `str()` rendering, which is
  what every f-string interpolation in the source consumes.
* HTTP effects are modelled by explicit state passing: a `World` carries the
  configuration and the trace of issued POST/GET requests, and response
  oracles (`HttpPost → RespJson`, `HttpGet → List (String × String)`) stand
  for the network.
* `requests.Response.json()` raises `requests.exceptions.JSONDecodeError`
  when the body is not valid JSON (it returns `None` only for a literal
  `null` body); `RespJson` distinguishes those outcomes, and a raised
  exception is an `Except.error` escaping the handler.
-/

namespace RSO

/-- The nine environment variables read by `os.getenv` at startup
(`main.py` lines 19-29). A missing variable would read as Python `None`;
the claims under study all concern configured deployments, so each
setting is modelled as the string it holds. -/
structure Env where
  RSO_BASE_URL : String
  RSO_CLIENT_ID : String
  RSO_CLIENT_SECRET : String
  APP_BASE_URL : String
  APP_CALLBACK_PATH : String
  CLIENT_ID : String
  RESPONSE_TYPE : String
  SCOPE : String
  RGAPI_TOKEN : String

/-- A Python string-to-string dict: entries in insertion order. -/
structure Dict where
  entries : List (String × String)

/-- Python dict assignment `d[k] = v`, modelled as a shadowing prepend:
`Dict.get` returns the most recent binding, which coincides with Python's
in-place overwrite on every observation the program makes (no code path in
`main.py` iterates `CONFIG`, so entry order of the configuration dict is
unobservable; the JSON objects that are iterated are plain pair lists,
never built through this operation). -/
def Dict.set (d : Dict) (k v : String) : Dict := ⟨(k, v) :: d.entries⟩

/-- Python dict subscript `d[k]` at a key known to be present (every access
in `main.py` is to a key set at startup). Absent keys default to `""`
rather than modelling `KeyError`, which no claim exercises. -/
def Dict.get (d : Dict) (k : String) : String :=
  ((d.entries.find? (fun kv => kv.1 == k)).map Prod.snd).getD ""

/-- `TIMEOUT = 10` (`main.py` line 18). -/
def TIMEOUT : Nat := 10

/-- The startup construction of `CONFIG` (`main.py` lines 19-38): the nine
environment reads, then the derived entries `TOKEN_URL`,
`APP_CALLBACK_URL`, `AUTHORIZE_URL`, and the five successive assignments
building `SIGN_IN_URL` (initial assignment plus four `+=`). -/
def mkCONFIG (env : Env) : Dict :=
  let c : Dict := ⟨[
    ("RSO_BASE_URL", env.RSO_BASE_URL),
    ("RSO_CLIENT_ID", env.RSO_CLIENT_ID),
    ("RSO_CLIENT_SECRET", env.RSO_CLIENT_SECRET),
    ("APP_BASE_URL", env.APP_BASE_URL),
    ("APP_CALLBACK_PATH", env.APP_CALLBACK_PATH),
    ("CLIENT_ID", env.CLIENT_ID),
    ("RESPONSE_TYPE", env.RESPONSE_TYPE),
    ("SCOPE", env.SCOPE),
    ("RGAPI_TOKEN", env.RGAPI_TOKEN)]⟩
  let c := c.set "TOKEN_URL" (c.get "RSO_BASE_URL" ++ "/token")
  let c := c.set "APP_CALLBACK_URL" (c.get "APP_BASE_URL" ++ c.get "APP_CALLBACK_PATH")
  let c := c.set "AUTHORIZE_URL" (c.get "RSO_BASE_URL" ++ "/authorize")
  let c := c.set "SIGN_IN_URL" (c.get "AUTHORIZE_URL")
  let c := c.set "SIGN_IN_URL" (c.get "SIGN_IN_URL" ++ ("?redirect_uri=" ++ c.get "APP_CALLBACK_URL"))
  let c := c.set "SIGN_IN_URL" (c.get "SIGN_IN_URL" ++ ("&client_id=" ++ c.get "RSO_CLIENT_ID"))
  let c := c.set "SIGN_IN_URL" (c.get "SIGN_IN_URL" ++ ("&response_type=" ++ c.get "RESPONSE_TYPE"))
  let c := c.set "SIGN_IN_URL" (c.get "SIGN_IN_URL" ++ ("&scope=" ++ c.get "SCOPE"))
  c

/-- One `requests.post` call: URL, `HTTPBasicAuth` credentials when given,
form body, and timeout (all the arguments `oauth_callback` passes). -/
structure HttpPost where
  url : String
  auth : Option (String × String)
  data : List (String × String)
  timeout : Nat

/-- One `requests.get` call: URL, headers, and timeout (all the arguments
`get_account_data` / `get_champion_rotation_data` pass). -/
structure HttpGet where
  url : String
  headers : List (String × String)
  timeout : Nat

/-- Outcome of `requests.Response.json()` on the token response:
`parseError` when the body is not valid JSON (the call raises
`requests.exceptions.JSONDecodeError`; an empty body is in this case),
`null` when the body is the literal `null` (the call returns `None`), and
`obj items` when the body is a JSON object with the given fields in
iteration order. -/
inductive RespJson where
  | parseError
  | null
  | obj (items : List (String × String))

/-- Server state threaded through the handlers: the startup configuration
plus the trace of downstream requests issued so far. -/
structure World where
  config : Dict
  posts : List HttpPost
  gets : List HttpGet

/-- Semantics of `requests.post`: record the request in the trace and ask
the oracle for the parsed response body. -/
def requests_post (req : HttpPost) (po : HttpPost → RespJson) (w : World) :
    RespJson × World :=
  (po req, { w with posts := w.posts ++ [req] })

/-- Semantics of `requests.get` followed by `.json()`: record the request
in the trace and ask the oracle for the response's JSON object. -/
def requests_get (req : HttpGet) (go : HttpGet → List (String × String)) (w : World) :
    (List (String × String)) × World :=
  (go req, { w with gets := w.gets ++ [req] })

/-- The world a freshly started server sees: resolved configuration, no
downstream requests issued yet. -/
def initWorld (env : Env) : World :=
  { config := mkCONFIG env, posts := [], gets := [] }

/-- `login` (`main.py` lines 41-46): returns the literal HTML page with the
sign-in hyperlink. It takes no request data and performs no effect, so the
world passes through. -/
def login (w : World) : String × World :=
  ("\n    <h1>login</h1>\n    <a href=\"" ++ Dict.get w.config "SIGN_IN_URL"
    ++ "\">Sign In --> " ++ Dict.get w.config "SIGN_IN_URL" ++ "</a>\n    ", w)

/-- `oauth_callback` (`main.py` lines 49-68): POST the code to the token
endpoint with Basic auth, then serialize the parsed response into a query
string and return the redirect script. When `resp.json()` raises
(`RespJson.parseError`) the exception escapes the handler
(`Except.error`). -/
def oauth_callback (code : String) (po : HttpPost → RespJson) (w : World) :
    Except String String × World :=
  let req : HttpPost :=
    { url := Dict.get w.config "TOKEN_URL"
      auth := some (Dict.get w.config "RSO_CLIENT_ID", Dict.get w.config "RSO_CLIENT_SECRET")
      data := [("grant_type", "authorization_code"), ("code", code),
               ("redirect_uri", Dict.get w.config "APP_CALLBACK_URL")]
      timeout := TIMEOUT }
  let r := requests_post req po w
  let body : Except String String :=
    match r.1 with
    | RespJson.parseError => Except.error "requests.exceptions.JSONDecodeError"
    | RespJson.null =>
        let query_string := ""
        Except.ok ("<script>window.location.href = \"/show-data/?"
          ++ query_string ++ "\";</script>")
    | RespJson.obj items =>
        let query_string := ""
        let query_string :=
          items.foldl (fun acc kv => acc ++ (kv.1 ++ "=" ++ kv.2 ++ "&")) query_string
        Except.ok ("<script>window.location.href = \"/show-data/?"
          ++ query_string ++ "\";</script>")
  (body, r.2)

/-- The CSS block local variable `style` of `json2table`
(`main.py` lines 72-80), transcribed verbatim. -/
def tableStyle : String :=
  "\n            <style type=\"text/css\">\n        .tg  \x7bborder-collapse:collapse;border-spacing:0;\x7d\n        .tg td\x7bborder-color:black;border-style:solid;border-width:1px;font-family:Arial, sans-serif;font-size:14px;\n        overflow:hidden;padding:10px 5px;word-break:normal;\x7d\n        .tg th\x7bborder-color:black;border-style:solid;border-width:1px;font-family:Arial, sans-serif;font-size:14px;\n        font-weight:normal;overflow:hidden;padding:10px 5px;word-break:normal;\x7d\n        .tg .tg-0lax\x7btext-align:left;vertical-align:top\x7d\n        </style>"

/-- The table opening (header row) literal of `json2table`
(`main.py` lines 82-91), transcribed verbatim. -/
def tableHead : String :=
  "\n        <table class=\"tg\">\n        <thead>\n        <tr>\n            <th class=\"tg-0lax\">key</th>\n            <th class=\"tg-0lax\">value</th>\n        </tr>\n        </thead>\n\n        <tbody>"

/-- The per-entry row fragment of `json2table` (`main.py` lines 93-98):
key and value are interpolated verbatim, with no escaping. -/
def rowFragment (key value : String) : String :=
  "\n                <tr>\n                    <td class=\"tg-0lax\">" ++ key
    ++ "</td>\n                    <td class=\"tg-0lax\">" ++ value
    ++ "<br></td>\n                </tr>"

/-- The table closing literal of `json2table` (`main.py` lines 100-103),
transcribed verbatim. -/
def tableFoot : String :=
  "\n    </tbody>\n    </table>\n        "

/-- `json2table` (`main.py` lines 71-105): style block, header, one row
appended per key/value pair of the object in iteration order, footer. -/
def json2table (json : List (String × String)) : String :=
  let style := tableStyle
  let html := tableHead
  let html := json.foldl (fun acc kv => acc ++ rowFragment kv.1 kv.2) html
  let html := html ++ tableFoot
  style ++ html

/-- `get_account_data` (`main.py` lines 131-139): GET the account endpoint
with the OAuth bearer token in the `Authorization` header. -/
def get_account_data (access_token : String) (go : HttpGet → List (String × String))
    (w : World) : (List (String × String)) × World :=
  requests_get
    { url := "https://americas.api.riotgames.com/riot/account/v1/accounts/me"
      headers := [("Authorization", "Bearer " ++ access_token)]
      timeout := TIMEOUT } go w

/-- `get_champion_rotation_data` (`main.py` lines 142-150): GET the
champion-rotation endpoint with the token in the `X-Riot-Token` header. -/
def get_champion_rotation_data (token : String) (go : HttpGet → List (String × String))
    (w : World) : (List (String × String)) × World :=
  requests_get
    { url := "https://na1.api.riotgames.com/lol/platform/v3/champion-rotations"
      headers := [("X-Riot-Token", token)]
      timeout := TIMEOUT } go w

/-- `show_data` (`main.py` lines 108-128): fetch account data with the
request's access token, fetch champion rotations with the configured
`RGAPI_TOKEN`, and concatenate the two rendered tables. -/
def show_data (access_token : String) (go : HttpGet → List (String × String))
    (w : World) : String × World :=
  let r1 := get_account_data access_token go w
  let account_html :=
    "\n            <h2>account data queried using RSO Access Token:</h2>\n            <p>"
      ++ json2table r1.1 ++ "</p>\n        "
  let r2 := get_champion_rotation_data (Dict.get r1.2.config "RGAPI_TOKEN") go r1.2
  let champion_rotation_html :=
    "\n            <h2>champion rotation data queried using RGAPI token</h2>\n            <p>"
      ++ json2table r2.1 ++ "</p>\n        "
  ("\n        " ++ account_html ++ "\n        " ++ champion_rotation_html ++ "\n    ", r2.2)

/-- Concatenation of one rendered fragment per list element, in order:
the right-hand normal form for the accumulating `+=` loops of the source. -/
def joinMap {α : Type} (g : α → String) : List α → String
  | [] => ""
  | x :: xs => g x ++ joinMap g xs

/-- A concrete configured environment, used to evaluate the handlers on
closed inputs. -/
def env0 : Env :=
  { RSO_BASE_URL := "https://auth.example.com"
    RSO_CLIENT_ID := "my-rso-client"
    RSO_CLIENT_SECRET := "s3cret"
    APP_BASE_URL := "http://local.example.com:3000"
    APP_CALLBACK_PATH := "/oauth-callback"
    CLIENT_ID := "legacy-client"
    RESPONSE_TYPE := "code"
    SCOPE := "openid"
    RGAPI_TOKEN := "RGAPI-0000" }

/-- Accumulating one rendered fragment per list element onto `init` (the
shape of the `+=` loops in `oauth_callback` and `json2table`) appends the
fragments of the elements, in order. -/
theorem foldl_append_joinMap {α : Type} (g : α → String) (l : List α) (init : String) :
    l.foldl (fun acc x => acc ++ g x) init = init ++ joinMap g l := by
  induction l generalizing init with
  | nil => simp [joinMap, String.append_empty]
  | cons x xs ih => simp [joinMap, ih, String.append_assoc]

/-- Claim C1 counterexample: when the token endpoint's body fails to parse
as JSON (the case `requests.Response.json()` raises, which includes an
empty body), the callback handler does not return the empty-redirect page
`/show-data/?`: the exception escapes it. Evaluated at a concrete
configuration and code. -/
theorem oauth_callback_parse_failure_not_redirect :
    (oauth_callback "authcode123" (fun _ => RespJson.parseError) (initWorld env0)).1
      = Except.error "requests.exceptions.JSONDecodeError"
    ∧ (oauth_callback "authcode123" (fun _ => RespJson.parseError) (initWorld env0)).1
      ≠ Except.ok "<script>window.location.href = \"/show-data/?\";</script>" := by
  refine ⟨rfl, ?_⟩
  intro h
  exact Except.noConfusion h

/-- Claim C1 (amended): the callback handler issues the empty redirect to
`/show-data/?` exactly when the token response parses to JSON `null` or to
an empty JSON object; when the body fails to parse as JSON (for instance,
an empty body), `resp.json()` raises and the handler fails instead of
redirecting. -/
theorem oauth_callback_empty_redirect (w : World) (code : String) :
    (oauth_callback code (fun _ => RespJson.null) w).1
      = Except.ok "<script>window.location.href = \"/show-data/?\";</script>"
    ∧ (oauth_callback code (fun _ => RespJson.obj []) w).1
      = Except.ok "<script>window.location.href = \"/show-data/?\";</script>"
    ∧ (oauth_callback code (fun _ => RespJson.parseError) w).1
      = Except.error "requests.exceptions.JSONDecodeError" :=
  ⟨rfl, rfl, rfl⟩

/-- Claim C2: for every token JSON object, the callback handler's redirect
target is `/show-data/?` followed by one `key=value&` fragment per field,
in the object's iteration order; in particular the object
`{"access_token":"abc","token_type":"bearer"}` redirects to
`/show-data/?access_token=abc&token_type=bearer&`. -/
theorem oauth_callback_query_serialization (w : World) (code : String)
    (items : List (String × String)) :
    (oauth_callback code (fun _ => RespJson.obj items) w).1
      = Except.ok ("<script>window.location.href = \"/show-data/?"
          ++ joinMap (fun kv => kv.1 ++ "=" ++ kv.2 ++ "&") items ++ "\";</script>")
    ∧ (oauth_callback "authcode123"
        (fun _ => RespJson.obj [("access_token", "abc"), ("token_type", "bearer")])
        (initWorld env0)).1
      = Except.ok "<script>window.location.href = \"/show-data/?access_token=abc&token_type=bearer&\";</script>" := by
  constructor
  · simp [oauth_callback, requests_post, foldl_append_joinMap, String.empty_append]
  · rfl

/-- Claim C3: the sign-in URL computed at startup is the authorize URL
followed by the four query parameters `redirect_uri` (the derived callback
URL), `client_id` (from `RSO_CLIENT_ID`), `response_type` and `scope`,
each taken from the configuration. -/
theorem sign_in_url_parameters (env : Env) :
    Dict.get (mkCONFIG env) "SIGN_IN_URL"
      = Dict.get (mkCONFIG env) "AUTHORIZE_URL"
        ++ ("?redirect_uri=" ++ Dict.get (mkCONFIG env) "APP_CALLBACK_URL")
        ++ ("&client_id=" ++ env.RSO_CLIENT_ID)
        ++ ("&response_type=" ++ env.RESPONSE_TYPE)
        ++ ("&scope=" ++ env.SCOPE)
    ∧ Dict.get (mkCONFIG env) "AUTHORIZE_URL" = env.RSO_BASE_URL ++ "/authorize"
    ∧ Dict.get (mkCONFIG env) "APP_CALLBACK_URL" = env.APP_BASE_URL ++ env.APP_CALLBACK_PATH :=
  ⟨rfl, rfl, rfl⟩

/-- Claim C4: `json2table` returns the style block and table header
followed by exactly one `<tr>` row per key of the object, in iteration
order, each row interpolating the key and the value verbatim
(`rowFragment` applies no escaping), and the table footer. -/
theorem json2table_rows (items : List (String × String)) :
    json2table items
      = tableStyle ++ (tableHead
          ++ joinMap (fun kv => rowFragment kv.1 kv.2) items ++ tableFoot) := by
  simp [json2table, foldl_append_joinMap, String.append_assoc]

/-- Claim C5: on every request, the display handler issues exactly two
downstream GET calls: the account lookup carrying only
`Authorization: Bearer <access_token>`, then the champion-rotation lookup
carrying only `X-Riot-Token: <configured RGAPI_TOKEN>`; neither call
carries the other call's credential header. -/
theorem show_data_two_calls (w : World) (access_token : String)
    (go : HttpGet → List (String × String)) :
    (show_data access_token go w).2.gets
      = w.gets
        ++ [{ url := "https://americas.api.riotgames.com/riot/account/v1/accounts/me"
              headers := [("Authorization", "Bearer " ++ access_token)]
              timeout := TIMEOUT },
            { url := "https://na1.api.riotgames.com/lol/platform/v3/champion-rotations"
              headers := [("X-Riot-Token", Dict.get w.config "RGAPI_TOKEN")]
              timeout := TIMEOUT }]
    ∧ ((show_data access_token go w).2.gets.drop w.gets.length).map
        (fun r => r.headers.map Prod.fst) = [["Authorization"], ["X-Riot-Token"]] := by
  have h : (show_data access_token go w).2.gets
      = w.gets
        ++ [{ url := "https://americas.api.riotgames.com/riot/account/v1/accounts/me"
              headers := [("Authorization", "Bearer " ++ access_token)]
              timeout := TIMEOUT },
            { url := "https://na1.api.riotgames.com/lol/platform/v3/champion-rotations"
              headers := [("X-Riot-Token", Dict.get w.config "RGAPI_TOKEN")]
              timeout := TIMEOUT }] := by
    simp [show_data, get_account_data, get_champion_rotation_data, requests_get,
      List.append_assoc]
  refine ⟨h, ?_⟩
  rw [h, List.drop_left]
  simp

/-- Claim C6: for every received authorization code, the callback handler
issues exactly one POST, to the configured token URL, with HTTP Basic
authentication from the configured client id and secret, a form body of
exactly `grant_type=authorization_code`, `code=<the received code>` and
`redirect_uri=<the configured callback URL>`, and the fixed timeout 10. -/
theorem oauth_callback_single_post (w : World) (code : String)
    (po : HttpPost → RespJson) :
    (oauth_callback code po w).2.posts
      = w.posts
        ++ [{ url := Dict.get w.config "TOKEN_URL"
              auth := some (Dict.get w.config "RSO_CLIENT_ID",
                            Dict.get w.config "RSO_CLIENT_SECRET")
              data := [("grant_type", "authorization_code"), ("code", code),
                       ("redirect_uri", Dict.get w.config "APP_CALLBACK_URL")]
              timeout := TIMEOUT }]
    ∧ TIMEOUT = 10 :=
  ⟨rfl, rfl⟩

/-- Claim C7: the login handler reads nothing from the request, causes no
effect (the world, configuration included, passes through untouched), and
always returns the same HTML page, a hyperlink whose href is the
precomputed sign-in URL; at a freshly started server the href is the full
sign-in URL derived from the environment. -/
theorem login_static_page (w : World) (env : Env) :
    (login w).1
      = "\n    <h1>login</h1>\n    <a href=\"" ++ Dict.get w.config "SIGN_IN_URL"
        ++ "\">Sign In --> " ++ Dict.get w.config "SIGN_IN_URL" ++ "</a>\n    "
    ∧ (login w).2 = w
    ∧ (login (initWorld env)).1
      = "\n    <h1>login</h1>\n    <a href=\""
        ++ (env.RSO_BASE_URL ++ "/authorize"
          ++ ("?redirect_uri=" ++ (env.APP_BASE_URL ++ env.APP_CALLBACK_PATH))
          ++ ("&client_id=" ++ env.RSO_CLIENT_ID)
          ++ ("&response_type=" ++ env.RESPONSE_TYPE)
          ++ ("&scope=" ++ env.SCOPE))
        ++ "\">Sign In --> "
        ++ (env.RSO_BASE_URL ++ "/authorize"
          ++ ("?redirect_uri=" ++ (env.APP_BASE_URL ++ env.APP_CALLBACK_PATH))
          ++ ("&client_id=" ++ env.RSO_CLIENT_ID)
          ++ ("&response_type=" ++ env.RESPONSE_TYPE)
          ++ ("&scope=" ++ env.SCOPE))
        ++ "</a>\n    " :=
  ⟨rfl, rfl, rfl⟩

/-- Claim C8: the derived configuration entries are the startup string
concatenations (token URL, callback URL, authorize URL, sign-in URL), and
no handler modifies the configuration: each of `login`, `oauth_callback`
and `show_data` leaves the configuration component of the world exactly as
it found it. -/
theorem config_resolved_and_immutable (env : Env) (w : World)
    (code access_token : String) (po : HttpPost → RespJson)
    (go : HttpGet → List (String × String)) :
    Dict.get (mkCONFIG env) "TOKEN_URL" = env.RSO_BASE_URL ++ "/token"
    ∧ Dict.get (mkCONFIG env) "APP_CALLBACK_URL"
        = env.APP_BASE_URL ++ env.APP_CALLBACK_PATH
    ∧ Dict.get (mkCONFIG env) "AUTHORIZE_URL" = env.RSO_BASE_URL ++ "/authorize"
    ∧ Dict.get (mkCONFIG env) "SIGN_IN_URL"
        = env.RSO_BASE_URL ++ "/authorize"
          ++ ("?redirect_uri=" ++ (env.APP_BASE_URL ++ env.APP_CALLBACK_PATH))
          ++ ("&client_id=" ++ env.RSO_CLIENT_ID)
          ++ ("&response_type=" ++ env.RESPONSE_TYPE)
          ++ ("&scope=" ++ env.SCOPE)
    ∧ (login w).2.config = w.config
    ∧ (oauth_callback code po w).2.config = w.config
    ∧ (show_data access_token go w).2.config = w.config :=
  ⟨rfl, rfl, rfl, rfl, rfl, rfl, rfl⟩

/-- Claim C9: the `CLIENT_ID` environment variable is stored in the
configuration but never read by any handler or derived URL (the sign-in
URL's `client_id` parameter comes from `RSO_CLIENT_ID`): two runs whose
environments differ only in `CLIENT_ID` produce identical pages and
identical downstream requests for every handler and every request. -/
theorem client_id_noninterference (env : Env) (c₁ c₂ code access_token : String)
    (po : HttpPost → RespJson) (go : HttpGet → List (String × String)) :
    (login (initWorld { env with CLIENT_ID := c₁ })).1
      = (login (initWorld { env with CLIENT_ID := c₂ })).1
    ∧ (oauth_callback code po (initWorld { env with CLIENT_ID := c₁ })).1
      = (oauth_callback code po (initWorld { env with CLIENT_ID := c₂ })).1
    ∧ (oauth_callback code po (initWorld { env with CLIENT_ID := c₁ })).2.posts
      = (oauth_callback code po (initWorld { env with CLIENT_ID := c₂ })).2.posts
    ∧ (show_data access_token go (initWorld { env with CLIENT_ID := c₁ })).1
      = (show_data access_token go (initWorld { env with CLIENT_ID := c₂ })).1
    ∧ (show_data access_token go (initWorld { env with CLIENT_ID := c₁ })).2.gets
      = (show_data access_token go (initWorld { env with CLIENT_ID := c₂ })).2.gets :=
  ⟨rfl, rfl, rfl, rfl, rfl⟩

/-- Claim C10: the callback handler applies no URL encoding: each
key/value pair contributes the literal key, `=`, the literal value and `&`
verbatim to the redirect target, so characters such as `&`, `=`, `?` and
spaces pass through unencoded (witnessed by the object
`{"a&b": "c=d e?"}`). -/
theorem oauth_callback_unencoded_query (w : World) (code k v : String)
    (rest : List (String × String)) :
    (oauth_callback code (fun _ => RespJson.obj ((k, v) :: rest)) w).1
      = Except.ok ("<script>window.location.href = \"/show-data/?"
          ++ (k ++ "=" ++ v ++ "&"
            ++ joinMap (fun kv => kv.1 ++ "=" ++ kv.2 ++ "&") rest)
          ++ "\";</script>")
    ∧ (oauth_callback "authcode456" (fun _ => RespJson.obj [("a&b", "c=d e?")])
        (initWorld env0)).1
      = Except.ok "<script>window.location.href = \"/show-data/?a&b=c=d e?&\";</script>" := by
  constructor
  · simp [oauth_callback, requests_post, foldl_append_joinMap, joinMap,
      String.empty_append, String.append_assoc]
  · rfl

end RSO
